import Mathlib

/-!
Verification of the StyleMix Studio front-end core: the request-orchestration
workflow of `App.tsx` (handlers `handleGenerateLook`, `handleGenerateImage`,
`handleEditImage`, `handleItemFiles`, `handleUserFile`, `removeItem`) and the
service layer of `geminiService.ts` (`fileToGenerativePart`,
`base64ToGenerativePart`, `generateLook`, `analyzeLookWithThinking`,
`editImage`, `generateImageFromText`).

The React state (`useState` hooks of `App`) is modelled as an explicit record
`AppState`; each event handler becomes a pure function from the state (plus the
oracle describing the upstream responses the awaited network calls would
return) to the new state together with the list of upstream calls it issued.
The upstream service is a black box: a response for a compose/edit call is
`Except String (List Part)` (transport error or a part list), for the analyze
call `Except String String`, for the text-to-image call
`Except String String` (the `imageBytes` field, possibly empty).

The browser's object-URL table (`URL.createObjectURL`) is modelled by the
`livePreviews` field together with the `nextBlobId` counter: a created preview
URL is appended to `livePreviews` and stays there unless revoked.  The source
never calls `URL.revokeObjectURL`, so no operation here removes entries.
-/

namespace StyleMix

/-- A local file as the browser hands it to the app: its name, its declared
MIME type (`File.type`), and its content.  `content = some c` means reading
the file with `FileReader.readAsDataURL` succeeds and `c` is the base64
payload; `content = none` means the read does not produce a string result
(the unreadable-file path of `fileToGenerativePart`). -/
structure File where
  name : String
  type : String
  content : Option String
deriving DecidableEq, Repr

/-- `inlineData` of a generative part: base64 payload plus MIME type
(`{ data, mimeType }` in `geminiService.ts`). -/
structure InlineData where
  data : String
  mimeType : String
deriving DecidableEq, Repr

/-- One part of a generative request or response: optional text and optional
inline image data, as in the Gemini part objects built by the service layer. -/
structure Part where
  text : Option String := none
  inlineData : Option InlineData := none
deriving DecidableEq, Repr

/-- The `UploadedFile` interface of `types.ts`: id, file handle, preview URL. -/
structure UploadedFile where
  id : String
  file : File
  preview : String
deriving DecidableEq, Repr

/-- The `AppTab` union type of `types.ts`. -/
inductive AppTab where
  | tryon
  | generate
  | edit
deriving DecidableEq, Repr

/-- The `AspectRatio` union type of `types.ts`
(`"1:1" | "3:4" | "4:3" | "9:16" | "16:9"`). -/
inductive AspectRatio where
  | r1x1
  | r3x4
  | r4x3
  | r9x16
  | r16x9
deriving DecidableEq, Repr

/-- The complete `useState` state of the `App` component, plus the modelled
browser object-URL table (`livePreviews` lists the object URLs created by
`URL.createObjectURL` and never revoked; `nextBlobId` numbers fresh URLs). -/
structure AppState where
  activeTab : AppTab
  itemImages : List UploadedFile
  userImage : Option UploadedFile
  sceneDescription : String
  useThinkingMode : Bool
  generatePrompt : String
  aspectRatio : AspectRatio
  editPrompt : String
  generatedImage : Option String
  analysisResult : String
  isLoading : Bool
  error : Option String
  livePreviews : List String
  nextBlobId : Nat
deriving DecidableEq, Repr

/-- The initial values of the `useState` hooks of `App`. -/
def initialState : AppState :=
  { activeTab := AppTab.tryon
    itemImages := []
    userImage := none
    sceneDescription := ""
    useThinkingMode := false
    generatePrompt := ""
    aspectRatio := AspectRatio.r1x1
    editPrompt := ""
    generatedImage := none
    analysisResult := ""
    isLoading := false
    error := none
    livePreviews := []
    nextBlobId := 0 }

/-- An upstream call issued by the service layer, recorded with its payload:
`composeImage` is `ai.models.generateContent` with image response modality
(used by `generateLook` and `editImage`), `analyzeImage` is the
`gemini-2.5-pro` text call of `analyzeLookWithThinking`, `textToImage` is
`ai.models.generateImages` of `generateImageFromText`. -/
inductive UpstreamCall where
  | composeImage (parts : List Part)
  | analyzeImage (parts : List Part)
  | textToImage (prompt : String) (ratio : AspectRatio)
deriving DecidableEq, Repr

/-- `FileReader.readAsDataURL`: a readable file yields its data URL
`"data:<mime>;base64,<payload>"`; an unreadable one yields no string. -/
def readAsDataURL (f : File) : Option String :=
  f.content.map (fun c => "data:" ++ f.type ++ ";base64," ++ c)

/-- JavaScript `String.prototype.split` on a single-character separator,
at the character-list level: `"a,b" → ["a","b"]`, `"" → [""]`. -/
def splitChars (sep : Char) : List Char → List (List Char)
  | [] => [[]]
  | c :: cs =>
    match splitChars sep cs with
    | [] => if c = sep then [[], []] else [[c]]
    | r :: rs => if c = sep then [] :: r :: rs else (c :: r) :: rs

/-- JavaScript `s.split(sep)` for a one-character separator. -/
def jsSplit (s : String) (sep : Char) : List String :=
  (splitChars sep s.toList).map (fun cs => String.mk cs)

/-- `fileToGenerativePart` of `geminiService.ts`: on a string reader result it
strips the data-URL prefix with `split(',')[1]`; otherwise it silently
resolves the payload to the empty string.  Either way it pairs the payload
with `file.type`.  (A data URL produced by `readAsDataURL` always contains a
comma, so index 1 of the split always exists on that path.) -/
def fileToGenerativePart (f : File) : InlineData :=
  match readAsDataURL f with
  | some s => { data := (jsSplit s ',').getD 1 "", mimeType := f.type }
  | none => { data := "", mimeType := f.type }

/-- `base64ToGenerativePart` of `geminiService.ts`: wraps an already-produced
base64 payload, with MIME type defaulting to `"image/jpeg"`. -/
def base64ToGenerativePart (base64Data : String) (mimeType : String := "image/jpeg") :
    InlineData :=
  { data := base64Data, mimeType := mimeType }

/-- The scene sentence opening the `generateLook` text prompt. -/
def tryOnScenePrompt (scene : String) : String :=
  "Generate a photorealistic image of a person in the following scene: \"" ++ scene ++ "\". "

/-- The prompt tail used by `generateLook` when a user photo is supplied. -/
def tryOnWithUserPrompt : String :=
  "The person in the image should be the person from the provided user photo, wearing the following items. Blend the items naturally onto the person."

/-- The prompt tail used by `generateLook` when no user photo is supplied. -/
def tryOnNoUserPrompt : String :=
  "The person should be an AI-generated model, wearing the following items. The items should look natural on the model."

/-- The part list `generateLook` sends: the text part first (`unshift`), then
the user-photo part if present, then one part per item image (`push`). -/
def generateLookParts (itemFiles : List File) (userFile : Option File)
    (scene : String) : List Part :=
  let textPrompt :=
    tryOnScenePrompt scene ++
      (match userFile with
       | some _ => tryOnWithUserPrompt
       | none => tryOnNoUserPrompt)
  let userParts : List Part :=
    match userFile with
    | some f => [{ inlineData := some (fileToGenerativePart f) }]
    | none => []
  { text := some textPrompt } ::
    (userParts ++ itemFiles.map (fun f => { inlineData := some (fileToGenerativePart f) }))

/-- The single upstream call `generateLook` issues. -/
def generateLookCall (itemFiles : List File) (userFile : Option File)
    (scene : String) : UpstreamCall :=
  UpstreamCall.composeImage (generateLookParts itemFiles userFile scene)

/-- The `for`-loop of `generateLook`/`editImage` over the response parts:
return the `inlineData.data` of the first part carrying inline data. -/
def extractInlineData : List Part → Option String
  | [] => none
  | p :: ps =>
    match p.inlineData with
    | some d => some d.data
    | none => extractInlineData ps

/-- Outcome of `generateLook` given the upstream response: transport errors
propagate; a response with no inline-image part throws
`"No image was generated."`; otherwise the first image payload is returned. -/
def generateLookResult (resp : Except String (List Part)) : Except String String :=
  match resp with
  | Except.error m => Except.error m
  | Except.ok parts =>
    match extractInlineData parts with
    | some d => Except.ok d
    | none => Except.error "No image was generated."

/-- The stylist prompt of `analyzeLookWithThinking`. -/
def analysisPrompt (scene : String) : String :=
  "You are a world-class fashion stylist. Provide a detailed, professional fashion analysis of the outfit shown in the image, considering the described scene: \"" ++ scene ++ "\". Focus on style, color coordination, suitability for the occasion, and suggest potential improvements or alternative accessories."

/-- The upstream call `analyzeLookWithThinking` issues: the text part followed
by the image part wrapped via `base64ToGenerativePart(imageBase64, 'image/jpeg')`. -/
def analyzeLookCall (imageBase64 scene : String) : UpstreamCall :=
  UpstreamCall.analyzeImage
    [{ text := some (analysisPrompt scene) },
     { inlineData := some (base64ToGenerativePart imageBase64 "image/jpeg") }]

/-- The upstream call `editImage` issues: the image part (wrapped with the
hard-coded `'image/jpeg'` MIME type) followed by the edit-instruction text. -/
def editImageCall (imageBase64 editPrompt : String) : UpstreamCall :=
  UpstreamCall.composeImage
    [{ inlineData := some (base64ToGenerativePart imageBase64 "image/jpeg") },
     { text := some editPrompt }]

/-- Outcome of `editImage` given the upstream response: transport errors
propagate; a response with no inline-image part throws
`"Could not edit the image."`. -/
def editImageResult (resp : Except String (List Part)) : Except String String :=
  match resp with
  | Except.error m => Except.error m
  | Except.ok parts =>
    match extractInlineData parts with
    | some d => Except.ok d
    | none => Except.error "Could not edit the image."

/-- Outcome of `generateImageFromText`: transport errors propagate; a falsy
(empty) `imageBytes` throws `"Image generation failed."`. -/
def generateImageFromTextResult (resp : Except String String) : Except String String :=
  match resp with
  | Except.error m => Except.error m
  | Except.ok bytes => if bytes = "" then Except.error "Image generation failed." else Except.ok bytes

/-- `URL.createObjectURL`: allocates a fresh object URL for the file and
records it in the live table.  It is only ever released by
`URL.revokeObjectURL`, which this source never calls. -/
def createObjectURL (st : AppState) : AppState × String :=
  let url := "blob:" ++ toString st.nextBlobId
  ({ st with nextBlobId := st.nextBlobId + 1, livePreviews := st.livePreviews ++ [url] }, url)

/-- `handleItemFiles` of `App.tsx`: for each incoming file build an
`UploadedFile` with id `` `${file.name}-${Date.now()}` `` and a fresh preview
URL, and append them in order to `itemImages`.  `now` stands for `Date.now()`. -/
def handleItemFiles (st : AppState) (files : List File) (now : Nat) : AppState :=
  files.foldl
    (fun acc f =>
      let res := createObjectURL acc
      { res.1 with
          itemImages :=
            res.1.itemImages ++ [{ id := f.name ++ "-" ++ toString now, file := f, preview := res.2 }] })
    st

/-- `handleUserFile` of `App.tsx`: if the incoming list is non-empty, replace
`userImage` with an `UploadedFile` built from the first file (fresh preview
URL, id from name and `Date.now()`); the remaining files are ignored.  An
empty list leaves the state untouched. -/
def handleUserFile (st : AppState) (files : List File) (now : Nat) : AppState :=
  match files with
  | [] => st
  | f :: _ =>
    let res := createObjectURL st
    { res.1 with
        userImage := some { id := f.name ++ "-" ++ toString now, file := f, preview := res.2 } }

/-- `removeItem` of `App.tsx`: `setItemImages(prev => prev.filter(item => item.id !== id))`.
No `URL.revokeObjectURL` is performed, so `livePreviews` is untouched. -/
def removeItem (st : AppState) (id : String) : AppState :=
  { st with itemImages := st.itemImages.filter (fun item => item.id ≠ id) }

/-- `handleGenerateLook` of `App.tsx` (the TryOn submit handler).  `genResp`
is the upstream response the compose-image call would return, `anaResp` the
response the analysis call would return; the returned list records the
upstream calls actually issued, in order. -/
def handleGenerateLook (st : AppState) (genResp : Except String (List Part))
    (anaResp : Except String String) : AppState × List UpstreamCall :=
  if st.itemImages.length = 0 ∨ st.sceneDescription = "" then
    ({ st with error := some "Please upload at least one item and describe the scene." }, [])
  else
    let st1 := { st with isLoading := true, error := none, generatedImage := none, analysisResult := "" }
    let call1 := generateLookCall (st.itemImages.map (fun u => u.file))
      (st.userImage.map (fun u => u.file)) st.sceneDescription
    match generateLookResult genResp with
    | Except.error msg => ({ st1 with isLoading := false, error := some msg }, [call1])
    | Except.ok img =>
      let st2 := { st1 with generatedImage := some img }
      if st.useThinkingMode then
        let call2 := analyzeLookCall img st.sceneDescription
        match anaResp with
        | Except.ok analysis =>
          ({ st2 with isLoading := false, analysisResult := analysis }, [call1, call2])
        | Except.error msg =>
          ({ st2 with isLoading := false, error := some msg }, [call1, call2])
      else
        ({ st2 with isLoading := false }, [call1])

/-- `handleGenerateImage` of `App.tsx` (the Generate submit handler). -/
def handleGenerateImage (st : AppState) (resp : Except String String) :
    AppState × List UpstreamCall :=
  if st.generatePrompt = "" then
    ({ st with error := some "Please enter a prompt to generate an image." }, [])
  else
    let st1 := { st with isLoading := true, error := none, generatedImage := none, analysisResult := "" }
    let call := UpstreamCall.textToImage st.generatePrompt st.aspectRatio
    match generateImageFromTextResult resp with
    | Except.ok img => ({ st1 with isLoading := false, generatedImage := some img }, [call])
    | Except.error m => ({ st1 with isLoading := false, error := some m }, [call])

/-- `handleEditImage` of `App.tsx` (the Edit submit handler).  The guard
mirrors `!generatedImage || !editPrompt` with JavaScript string falsiness
(`null` or the empty string). -/
def handleEditImage (st : AppState) (resp : Except String (List Part)) :
    AppState × List UpstreamCall :=
  if st.generatedImage = none ∨ st.generatedImage = some "" ∨ st.editPrompt = "" then
    ({ st with error := some "Please generate an image first and enter an edit prompt." }, [])
  else
    let st1 := { st with isLoading := true, error := none }
    let call := editImageCall (st.generatedImage.getD "") st.editPrompt
    match editImageResult resp with
    | Except.ok newImg =>
      ({ st1 with isLoading := false, generatedImage := some newImg, editPrompt := "" }, [call])
    | Except.error m => ({ st1 with isLoading := false, error := some m }, [call])

/-- A TryOn submit through the view: the "Generate My Look" button carries
`disabled={isLoading}`, so a click while loading does nothing. -/
def submitTryOn (st : AppState) (genResp : Except String (List Part))
    (anaResp : Except String String) : AppState × List UpstreamCall :=
  if st.isLoading then (st, []) else handleGenerateLook st genResp anaResp

/-- A Generate submit through the view: the "Generate Image" button has NO
`disabled` attribute, so a click always invokes `handleGenerateImage`. -/
def submitGenerate (st : AppState) (resp : Except String String) :
    AppState × List UpstreamCall :=
  handleGenerateImage st resp

/-- An Edit submit through the view: the "Apply Edit" button carries
`disabled={isLoading}`, so a click while loading does nothing. -/
def submitEdit (st : AppState) (resp : Except String (List Part)) :
    AppState × List UpstreamCall :=
  if st.isLoading then (st, []) else handleEditImage st resp

/-- The error messages raised before any network call by the required-field
guards of the three handlers (the spec's `ValidationError` taxonomy class). -/
def validationMessages : List String :=
  ["Please upload at least one item and describe the scene.",
   "Please enter a prompt to generate an image.",
   "Please generate an image first and enter an edit prompt."]

/-- A message belongs to the `ValidationError` class. -/
def IsValidationError (m : String) : Prop := m ∈ validationMessages

/-- The error messages thrown when an upstream call completes but yields no
usable artifact (the spec's `GenerationError` taxonomy class). -/
def generationMessages : List String :=
  ["No image was generated.", "Could not edit the image.", "Image generation failed."]

/-- A message belongs to the `GenerationError` class. -/
def IsGenerationError (m : String) : Prop := m ∈ generationMessages

/-- The output panel's error report: `renderOutputArea` shows the error box
exactly when `!isLoading && error` (a present, non-empty error string). -/
def showsError (st : AppState) : Bool :=
  !st.isLoading && !(st.error.getD "" == "")

/-- The output panel's image display: `renderOutputArea` renders the image
exactly when `generatedImage` is truthy. -/
def showsImage (st : AppState) : Bool :=
  !(st.generatedImage.getD "" == "")

/-! Concrete fixtures used by witnesses and counterexamples. -/

/-- A readable PNG item image. -/
def dressFile : File := { name := "dress.png", type := "image/png", content := some "RFJFU1M" }

/-- A file whose read does not yield a string result. -/
def unreadableFile : File := { name := "broken.png", type := "image/png", content := none }

/-- An upstream compose response carrying one inline-image part. -/
def okImageParts : List Part := [{ inlineData := some { data := "IMG", mimeType := "image/png" } }]

/-- The state after uploading `dressFile` as the single item image. -/
def singleItemState : AppState := handleItemFiles initialState [dressFile] 1

/-- A state ready for a TryOn submit with the analysis option enabled. -/
def tryOnReadyState : AppState :=
  { singleItemState with sceneDescription := "sunset park", useThinkingMode := true }

/-- A state holding a prior result and an edit instruction, ready for Edit. -/
def editReadyState : AppState :=
  { initialState with
      activeTab := AppTab.edit
      generatedImage := some "OLD"
      editPrompt := "make the background black and white" }

/-- A state with a Generate request already in flight. -/
def loadingGenerateState : AppState :=
  { initialState with
      isLoading := true
      generatePrompt := "astronaut on Mars"
      aspectRatio := AspectRatio.r16x9 }

/-- A state holding the encoded bytes of `dressFile` as its current result. -/
def editEncodedState : AppState :=
  { initialState with generatedImage := some "RFJFU1M", editPrompt := "add a retro filter" }

/-- The parts of the analysis call issued for image `"IMG"` in scene
`"sunset park"`. -/
def analyzeFixtureParts : List Part :=
  [{ text := some (analysisPrompt "sunset park") },
   { inlineData := some (base64ToGenerativePart "IMG" "image/jpeg") }]

/-- Inversion for `generateLookResult`: a successful outcome comes from a
part-list response whose first inline payload is the produced image. -/
theorem generateLookResult_ok_inv (resp : Except String (List Part)) (d : String)
    (h : generateLookResult resp = Except.ok d) :
    ∃ ps, resp = Except.ok ps ∧ extractInlineData ps = some d := by
  cases resp with
  | error m => simp [generateLookResult] at h
  | ok ps =>
    refine ⟨ps, rfl, ?_⟩
    cases hE : extractInlineData ps with
    | none => simp [generateLookResult, hE] at h
    | some v =>
      simp [generateLookResult, hE] at h
      rw [h]

/-! Claim theorems. -/

/-- C1: evaluation of the submit actions at a state with a request already in
flight (`isLoading = true`).  The "Generate Image" button has no `disabled`
attribute and `handleGenerateImage` has no in-flight guard, so a Generate
submit while Submitting is NOT a no-op: it issues an upstream text-to-image
call and overwrites the session state.  The TryOn and Edit submits, whose
buttons carry `disabled={isLoading}`, are no-ops only at the view layer. -/
theorem generate_submit_not_guarded_while_loading :
    (submitGenerate loadingGenerateState (Except.ok "IMG")).2 =
      [UpstreamCall.textToImage "astronaut on Mars" AspectRatio.r16x9]
    ∧ (submitGenerate loadingGenerateState (Except.ok "IMG")).1.generatedImage = some "IMG"
    ∧ (submitGenerate loadingGenerateState (Except.ok "IMG")).1 ≠ loadingGenerateState
    ∧ submitTryOn loadingGenerateState (Except.ok []) (Except.ok "") = (loadingGenerateState, [])
    ∧ submitEdit loadingGenerateState (Except.ok []) = (loadingGenerateState, []) := by
  decide

/-- C3: a TryOn submit with an empty item list or an empty scene description
fails with the required-field message (the spec's `ValidationError`), issues
zero upstream calls, and leaves every state field other than the error
message unchanged. -/
theorem tryOn_empty_inputs_validation_error (st : AppState)
    (genResp : Except String (List Part)) (anaResp : Except String String)
    (h : st.itemImages = [] ∨ st.sceneDescription = "") :
    handleGenerateLook st genResp anaResp =
      ({ st with error := some "Please upload at least one item and describe the scene." }, [])
    ∧ IsValidationError "Please upload at least one item and describe the scene." := by
  refine ⟨?_, by simp [IsValidationError, validationMessages]⟩
  unfold handleGenerateLook
  rcases h with h | h <;> simp [h]

/-- Witness for C3: the initial state has an empty item list, and the TryOn
submit there sets only the validation message and issues no call. -/
theorem tryOn_empty_inputs_validation_error_witness :
    (initialState.itemImages = [] ∨ initialState.sceneDescription = "")
    ∧ (handleGenerateLook initialState (Except.ok okImageParts) (Except.ok "fine") =
        ({ initialState with error := some "Please upload at least one item and describe the scene." }, [])
      ∧ IsValidationError "Please upload at least one item and describe the scene.") :=
  ⟨Or.inl rfl,
   tryOn_empty_inputs_validation_error initialState (Except.ok okImageParts) (Except.ok "fine")
     (Or.inl rfl)⟩

/-- C5: on an unreadable file `fileToGenerativePart` does not surface any
read error; it silently produces an inline part with empty payload and the
file's MIME type — valid-looking empty content that is then sent upstream
(the claim requires an explicit `ReadError` instead). -/
theorem encodeFile_empty_fallback_on_unreadable :
    fileToGenerativePart unreadableFile = { data := "", mimeType := "image/png" } := rfl

/-- C7 counterexample: after uploading one item, removing it by id does
remove the item but leaves its preview object URL in the live table — the
preview handle is never released (`URL.revokeObjectURL` is never called),
contradicting the claim that `remove(id)` releases it. -/
theorem removeItem_does_not_release_preview :
    singleItemState.itemImages =
      [{ id := "dress.png-1", file := dressFile, preview := "blob:0" }]
    ∧ singleItemState.livePreviews = ["blob:0"]
    ∧ (removeItem singleItemState "dress.png-1").itemImages = []
    ∧ (removeItem singleItemState "dress.png-1").livePreviews = ["blob:0"] := by
  decide

/-- C7 amended: `remove(id)` removes exactly the items whose id matches,
leaving all other items in their original order; it is a no-op when no item
matches; and it does NOT release the removed item's preview handle — the
live object-URL table is unchanged. -/
theorem removeItem_filter_no_release (st : AppState) (id : String) :
    (removeItem st id).itemImages = st.itemImages.filter (fun it => it.id ≠ id)
    ∧ (removeItem st id).livePreviews = st.livePreviews
    ∧ ((∀ it ∈ st.itemImages, it.id ≠ id) → removeItem st id = st) := by
  refine ⟨rfl, rfl, fun h => ?_⟩
  have hf : st.itemImages.filter (fun it => it.id ≠ id) = st.itemImages := by
    apply List.filter_eq_self.mpr
    intro a ha
    simpa using h a ha
  show { st with itemImages := st.itemImages.filter (fun it => it.id ≠ id) } = st
  rw [hf]

/-- Witness for C7 amended: removing a nonexistent id from the one-item state
keeps the filtered list, the live previews, and (the no-op part discharged at
this input) the whole state. -/
theorem removeItem_filter_no_release_witness :
    ((removeItem singleItemState "zzz").itemImages =
        singleItemState.itemImages.filter (fun it => it.id ≠ "zzz")
      ∧ (removeItem singleItemState "zzz").livePreviews = singleItemState.livePreviews
      ∧ ((∀ it ∈ singleItemState.itemImages, it.id ≠ "zzz") →
          removeItem singleItemState "zzz" = singleItemState))
    ∧ removeItem singleItemState "zzz" = singleItemState :=
  ⟨removeItem_filter_no_release singleItemState "zzz",
   (removeItem_filter_no_release singleItemState "zzz").2.2 (by decide)⟩

/-- C2 counterexample: at a concrete TryOn state with the analysis option
enabled, the image call succeeds but the analysis call fails; the final
state keeps the produced image with an empty analysis field, yet the error
message is set and the output panel reports the failure — the operation is
NOT reported as Succeeded as the claim states (the analysis exception is
caught by the same handler and surfaced as the session error). -/
theorem tryOn_analysis_failure_sets_error :
    (handleGenerateLook tryOnReadyState (Except.ok okImageParts)
        (Except.error "analysis failed")).1.error = some "analysis failed"
    ∧ (handleGenerateLook tryOnReadyState (Except.ok okImageParts)
        (Except.error "analysis failed")).1.generatedImage = some "IMG"
    ∧ (handleGenerateLook tryOnReadyState (Except.ok okImageParts)
        (Except.error "analysis failed")).1.analysisResult = ""
    ∧ showsError (handleGenerateLook tryOnReadyState (Except.ok okImageParts)
        (Except.error "analysis failed")).1 = true
    ∧ showsImage (handleGenerateLook tryOnReadyState (Except.ok okImageParts)
        (Except.error "analysis failed")).1 = true := by
  decide

/-- C2 amended: when the TryOn inputs pass validation, the image call
succeeds with payload `d`, the analysis option is set, and the analysis call
fails with message `m`, the final state keeps the produced image
(`generatedImage = some d`, never rolled back) with an empty analysis field,
but the failure is reported: the session error is set to `m`, so the
operation ends Failed rather than Succeeded. -/
theorem tryOn_analysis_failure_keeps_image (st : AppState) (ps : List Part) (d m : String)
    (hItems : st.itemImages ≠ []) (hScene : st.sceneDescription ≠ "")
    (hImg : extractInlineData ps = some d) (hThink : st.useThinkingMode = true) :
    (handleGenerateLook st (Except.ok ps) (Except.error m)).1 =
      { st with generatedImage := some d, analysisResult := "",
                error := some m, isLoading := false } := by
  have hcond : ¬ (st.itemImages.length = 0 ∨ st.sceneDescription = "") := by
    rintro (h | h)
    · exact hItems (List.length_eq_zero.mp h)
    · exact hScene h
  unfold handleGenerateLook
  rw [if_neg hcond]
  simp [generateLookResult, hImg, hThink]

/-- Witness for C2 amended at the concrete TryOn fixture. -/
theorem tryOn_analysis_failure_keeps_image_witness :
    tryOnReadyState.itemImages ≠ [] ∧ tryOnReadyState.sceneDescription ≠ ""
    ∧ extractInlineData okImageParts = some "IMG"
    ∧ tryOnReadyState.useThinkingMode = true
    ∧ (handleGenerateLook tryOnReadyState (Except.ok okImageParts)
        (Except.error "analysis failed")).1 =
        { tryOnReadyState with generatedImage := some "IMG", analysisResult := "",
                               error := some "analysis failed", isLoading := false } :=
  ⟨by decide, by decide, rfl, rfl,
   tryOn_analysis_failure_keeps_image tryOnReadyState okImageParts "IMG" "analysis failed"
     (by decide) (by decide) rfl rfl⟩

/-- C4: when the upstream compose call returns a part list with zero inline
image parts, TryOn fails with `"No image was generated."` and Edit with
`"Could not edit the image."` (both in the `GenerationError` class); the
error is set (state Failed) and `isLoading` ends false.  The prior result is
untouched except for TryOn's start-of-call wipe (`generatedImage := none`,
`analysisResult := ""`); Edit performs no wipe, so the prior image is fully
untouched. -/
theorem compose_no_image_parts_generation_error :
    (∀ (st : AppState) (ps : List Part) (anaResp : Except String String),
      st.itemImages ≠ [] → st.sceneDescription ≠ "" → extractInlineData ps = none →
      (handleGenerateLook st (Except.ok ps) anaResp).1 =
        { st with generatedImage := none, analysisResult := "",
                  error := some "No image was generated.", isLoading := false }
      ∧ IsGenerationError "No image was generated.")
    ∧ (∀ (st : AppState) (ps : List Part),
      ¬ (st.generatedImage = none ∨ st.generatedImage = some "" ∨ st.editPrompt = "") →
      extractInlineData ps = none →
      (handleEditImage st (Except.ok ps)).1 =
        { st with error := some "Could not edit the image.", isLoading := false }
      ∧ (handleEditImage st (Except.ok ps)).1.generatedImage = st.generatedImage
      ∧ IsGenerationError "Could not edit the image.") := by
  constructor
  · intro st ps anaResp hItems hScene hE
    have hcond : ¬ (st.itemImages.length = 0 ∨ st.sceneDescription = "") := by
      rintro (h | h)
      · exact hItems (List.length_eq_zero.mp h)
      · exact hScene h
    refine ⟨?_, by simp [IsGenerationError, generationMessages]⟩
    unfold handleGenerateLook
    rw [if_neg hcond]
    simp [generateLookResult, hE]
  · intro st ps hguard hE
    have h1 : (handleEditImage st (Except.ok ps)).1 =
        { st with error := some "Could not edit the image.", isLoading := false } := by
      unfold handleEditImage
      rw [if_neg hguard]
      simp [editImageResult, hE]
    refine ⟨h1, ?_, by simp [IsGenerationError, generationMessages]⟩
    rw [h1]

/-- Witness for C4 at the TryOn fixture and the Edit fixture, each receiving
an upstream response with zero image parts. -/
theorem compose_no_image_parts_generation_error_witness :
    (tryOnReadyState.itemImages ≠ [] ∧ tryOnReadyState.sceneDescription ≠ ""
      ∧ extractInlineData ([] : List Part) = none
      ∧ ((handleGenerateLook tryOnReadyState (Except.ok []) (Except.ok "fine")).1 =
          { tryOnReadyState with generatedImage := none, analysisResult := "",
                                 error := some "No image was generated.", isLoading := false }
        ∧ IsGenerationError "No image was generated."))
    ∧ (¬ (editReadyState.generatedImage = none ∨ editReadyState.generatedImage = some ""
          ∨ editReadyState.editPrompt = "")
      ∧ ((handleEditImage editReadyState (Except.ok [])).1 =
          { editReadyState with error := some "Could not edit the image.", isLoading := false }
        ∧ (handleEditImage editReadyState (Except.ok [])).1.generatedImage =
            editReadyState.generatedImage
        ∧ IsGenerationError "Could not edit the image.")) :=
  ⟨⟨by decide, by decide, rfl,
    compose_no_image_parts_generation_error.1 tryOnReadyState [] (Except.ok "fine")
      (by decide) (by decide) rfl⟩,
   ⟨by decide,
    compose_no_image_parts_generation_error.2 editReadyState [] (by decide) rfl⟩⟩

/-- C6 counterexample: encoding the PNG file yields the payload `"RFJFU1M"`
with media type `"image/png"`, but the Edit call built from that payload
declares the hard-coded media type `"image/jpeg"` — the original file's
media type is NOT preserved across the encode/wrap/edit boundary. -/
theorem edit_call_drops_png_media_type :
    fileToGenerativePart dressFile = { data := "RFJFU1M", mimeType := "image/png" }
    ∧ editImageCall (fileToGenerativePart dressFile).data "add a retro filter" =
        UpstreamCall.composeImage
          [{ inlineData := some { data := "RFJFU1M", mimeType := "image/jpeg" } },
           { text := some "add a retro filter" }]
    ∧ ("image/jpeg" : String) ≠ "image/png" := by
  decide

/-- C6 amended: feeding `encodeFile`'s output through `wrapEncodedResult`
(`base64ToGenerativePart`, whose MIME argument defaults to `"image/jpeg"`)
and into the Edit handler produces an upstream call whose image payload
bytes equal the originally encoded bytes exactly; its media type, however,
is always the hard-coded `"image/jpeg"` — it equals the original file's
declared type only when that type is `"image/jpeg"`. -/
theorem edit_call_preserves_bytes_forces_jpeg (st : AppState) (f : File)
    (resp : Except String (List Part))
    (hst : st.generatedImage = some (fileToGenerativePart f).data)
    (hd : (fileToGenerativePart f).data ≠ "") (hp : st.editPrompt ≠ "") :
    base64ToGenerativePart (fileToGenerativePart f).data =
      { data := (fileToGenerativePart f).data, mimeType := "image/jpeg" }
    ∧ (handleEditImage st resp).2 =
        [UpstreamCall.composeImage
          [{ inlineData := some { data := (fileToGenerativePart f).data,
                                  mimeType := "image/jpeg" } },
           { text := some st.editPrompt }]] := by
  have hguard : ¬ (st.generatedImage = none ∨ st.generatedImage = some ""
      ∨ st.editPrompt = "") := by
    rintro (h | h | h)
    · rw [hst] at h; exact Option.noConfusion h
    · rw [hst] at h; exact hd (Option.some.inj h)
    · exact hp h
  refine ⟨rfl, ?_⟩
  unfold handleEditImage
  rw [if_neg hguard]
  cases hres : editImageResult resp <;>
    simp [editImageCall, base64ToGenerativePart, hst]

/-- Witness for C6 amended: the state holding `dressFile`'s encoded bytes as
its current result issues an Edit call with those exact bytes and the
`"image/jpeg"` media type. -/
theorem edit_call_preserves_bytes_forces_jpeg_witness :
    editEncodedState.generatedImage = some (fileToGenerativePart dressFile).data
    ∧ (fileToGenerativePart dressFile).data ≠ ""
    ∧ editEncodedState.editPrompt ≠ ""
    ∧ (base64ToGenerativePart (fileToGenerativePart dressFile).data =
        { data := (fileToGenerativePart dressFile).data, mimeType := "image/jpeg" }
      ∧ (handleEditImage editEncodedState (Except.ok okImageParts)).2 =
          [UpstreamCall.composeImage
            [{ inlineData := some { data := (fileToGenerativePart dressFile).data,
                                    mimeType := "image/jpeg" } },
             { text := some editEncodedState.editPrompt }]]) :=
  ⟨by decide, by decide, by decide,
   edit_call_preserves_bytes_forces_jpeg editEncodedState dressFile (Except.ok okImageParts)
     (by decide) (by decide) (by decide)⟩

/-- C8: the analysis call of TryOn is only ever issued strictly after the
image-generation call completed successfully: whenever an analyze call
appears in the trace of `handleGenerateLook`, the compose response was a
part list whose first inline payload `d` exists, the analysis option was
set, the full trace is exactly the compose call followed by that analyze
call (strictly sequential, no other interleaving), and the analyze call's
image part carries the bytes `d` produced by the first call. -/
theorem tryOn_analysis_strictly_after_generation (st : AppState)
    (genResp : Except String (List Part)) (anaResp : Except String String)
    (parts : List Part)
    (h : UpstreamCall.analyzeImage parts ∈ (handleGenerateLook st genResp anaResp).2) :
    ∃ ps d, genResp = Except.ok ps ∧ extractInlineData ps = some d
      ∧ st.useThinkingMode = true
      ∧ (handleGenerateLook st genResp anaResp).2 =
          [generateLookCall (st.itemImages.map (fun u => u.file))
             (st.userImage.map (fun u => u.file)) st.sceneDescription,
           analyzeLookCall d st.sceneDescription]
      ∧ parts = [{ text := some (analysisPrompt st.sceneDescription) },
                 { inlineData := some (base64ToGenerativePart d "image/jpeg") }]
      ∧ (handleGenerateLook st genResp anaResp).1.generatedImage = some d := by
  unfold handleGenerateLook at h ⊢
  by_cases hc : (st.itemImages.length = 0 ∨ st.sceneDescription = "")
  · rw [if_pos hc] at h
    simp at h
  · rw [if_neg hc] at h ⊢
    cases hg : generateLookResult genResp with
    | error m =>
      rw [hg] at h
      simp [generateLookCall] at h
    | ok img =>
      rw [hg] at h
      obtain ⟨ps, hps, hE⟩ := generateLookResult_ok_inv genResp img hg
      cases hT : st.useThinkingMode with
      | false =>
        rw [hT] at h
        simp [generateLookCall] at h
      | true =>
        rw [hT] at h
        cases anaResp with
        | ok analysis =>
          have h2 : UpstreamCall.analyzeImage parts ∈
              [generateLookCall (st.itemImages.map (fun u => u.file))
                 (st.userImage.map (fun u => u.file)) st.sceneDescription,
               analyzeLookCall img st.sceneDescription] := h
          rcases List.mem_cons.mp h2 with h3 | h3
          · exact absurd h3 (by simp [generateLookCall])
          · rcases List.mem_cons.mp h3 with h4 | h4
            · have hparts := h4
              simp only [analyzeLookCall, UpstreamCall.analyzeImage.injEq] at hparts
              exact ⟨ps, img, hps, hE, rfl, rfl, hparts, rfl⟩
            · simp at h4
        | error msg =>
          have h2 : UpstreamCall.analyzeImage parts ∈
              [generateLookCall (st.itemImages.map (fun u => u.file))
                 (st.userImage.map (fun u => u.file)) st.sceneDescription,
               analyzeLookCall img st.sceneDescription] := h
          rcases List.mem_cons.mp h2 with h3 | h3
          · exact absurd h3 (by simp [generateLookCall])
          · rcases List.mem_cons.mp h3 with h4 | h4
            · have hparts := h4
              simp only [analyzeLookCall, UpstreamCall.analyzeImage.injEq] at hparts
              exact ⟨ps, img, hps, hE, rfl, rfl, hparts, rfl⟩
            · simp at h4

set_option maxRecDepth 4000 in
/-- Witness for C8 at the concrete TryOn fixture: the analyze call with the
fixture parts is in the trace, and the theorem yields the sequencing facts. -/
theorem tryOn_analysis_strictly_after_generation_witness :
    (UpstreamCall.analyzeImage analyzeFixtureParts ∈
      (handleGenerateLook tryOnReadyState (Except.ok okImageParts) (Except.ok "nice")).2)
    ∧ ∃ ps d, (Except.ok okImageParts : Except String (List Part)) = Except.ok ps
        ∧ extractInlineData ps = some d
        ∧ tryOnReadyState.useThinkingMode = true
        ∧ (handleGenerateLook tryOnReadyState (Except.ok okImageParts) (Except.ok "nice")).2 =
            [generateLookCall (tryOnReadyState.itemImages.map (fun u => u.file))
               (tryOnReadyState.userImage.map (fun u => u.file)) tryOnReadyState.sceneDescription,
             analyzeLookCall d tryOnReadyState.sceneDescription]
        ∧ analyzeFixtureParts =
            [{ text := some (analysisPrompt tryOnReadyState.sceneDescription) },
             { inlineData := some (base64ToGenerativePart d "image/jpeg") }]
        ∧ (handleGenerateLook tryOnReadyState (Except.ok okImageParts)
            (Except.ok "nice")).1.generatedImage = some d :=
  ⟨by decide,
   tryOn_analysis_strictly_after_generation tryOnReadyState (Except.ok okImageParts)
     (Except.ok "nice") analyzeFixtureParts (by decide)⟩

/-- C9: `handleUserFile` on an empty file list returns no item and leaves the
state (in particular the existing reference image) unchanged; on a non-empty
list it replaces the single reference image with an `UploadedFile` built from
the first file, ignoring all remaining files without error — the result is
identical to processing the first file alone — and leaves the item list, the
current result and the error untouched. -/
theorem setSingleReference_replaces_with_first (st : AppState) (now : Nat) :
    handleUserFile st [] now = st
    ∧ ∀ (f : File) (rest : List File),
        handleUserFile st (f :: rest) now = handleUserFile st [f] now
        ∧ (handleUserFile st (f :: rest) now).userImage =
            some { id := f.name ++ "-" ++ toString now, file := f,
                   preview := (createObjectURL st).2 }
        ∧ (handleUserFile st (f :: rest) now).itemImages = st.itemImages
        ∧ (handleUserFile st (f :: rest) now).generatedImage = st.generatedImage
        ∧ (handleUserFile st (f :: rest) now).error = st.error :=
  ⟨rfl, fun _ _ => ⟨rfl, rfl, rfl, rfl, rfl⟩⟩

/-- C10: the Edit handler never wipes the current result at submit time: a
validation failure (missing image or empty instruction) changes nothing but
the error message; an upstream failure — transport error or a response with
no image part, i.e. any `editImageResult` error — leaves the prior image and
the instruction text unchanged; only a successful Edit replaces the image
and clears the instruction text.  By contrast a validation-passing Generate
submit wipes the prior image at call start, so its failure leaves none. -/
theorem edit_keeps_prior_image_until_success :
    (∀ (st : AppState) (resp : Except String (List Part)),
      (st.generatedImage = none ∨ st.generatedImage = some "" ∨ st.editPrompt = "") →
      handleEditImage st resp =
        ({ st with error := some "Please generate an image first and enter an edit prompt." }, []))
    ∧ (∀ (st : AppState) (resp : Except String (List Part)) (m : String),
      ¬ (st.generatedImage = none ∨ st.generatedImage = some "" ∨ st.editPrompt = "") →
      editImageResult resp = Except.error m →
      (handleEditImage st resp).1 = { st with error := some m, isLoading := false })
    ∧ (∀ (st : AppState) (resp : Except String (List Part)) (d : String),
      ¬ (st.generatedImage = none ∨ st.generatedImage = some "" ∨ st.editPrompt = "") →
      editImageResult resp = Except.ok d →
      (handleEditImage st resp).1 =
        { st with generatedImage := some d, editPrompt := "",
                  error := none, isLoading := false })
    ∧ (∀ (st : AppState) (m : String),
      st.generatePrompt ≠ "" →
      (handleGenerateImage st (Except.error m)).1.generatedImage = none) := by
  refine ⟨?_, ?_, ?_, ?_⟩
  · intro st resp hguard
    unfold handleEditImage
    rw [if_pos hguard]
  · intro st resp m hguard hres
    unfold handleEditImage
    rw [if_neg hguard, hres]
  · intro st resp d hguard hres
    unfold handleEditImage
    rw [if_neg hguard, hres]
  · intro st m hprompt
    unfold handleGenerateImage
    rw [if_neg hprompt]
    simp [generateImageFromTextResult]

/-- Witness for C10 at concrete states: a validation failure on the initial
state, an upstream transport failure and a success on the edit-ready state,
and a failing Generate submit that leaves no image. -/
theorem edit_keeps_prior_image_until_success_witness :
    ((initialState.generatedImage = none ∨ initialState.generatedImage = some ""
        ∨ initialState.editPrompt = "")
      ∧ handleEditImage initialState (Except.ok okImageParts) =
          ({ initialState with
              error := some "Please generate an image first and enter an edit prompt." }, []))
    ∧ (¬ (editReadyState.generatedImage = none ∨ editReadyState.generatedImage = some ""
          ∨ editReadyState.editPrompt = "")
      ∧ editImageResult (Except.error "network down") = Except.error "network down"
      ∧ (handleEditImage editReadyState (Except.error "network down")).1 =
          { editReadyState with error := some "network down", isLoading := false })
    ∧ (editImageResult (Except.ok okImageParts) = Except.ok "IMG"
      ∧ (handleEditImage editReadyState (Except.ok okImageParts)).1 =
          { editReadyState with generatedImage := some "IMG", editPrompt := "",
                                error := none, isLoading := false })
    ∧ (loadingGenerateState.generatePrompt ≠ ""
      ∧ (handleGenerateImage loadingGenerateState
          (Except.error "network down")).1.generatedImage = none) :=
  ⟨⟨Or.inl rfl,
    edit_keeps_prior_image_until_success.1 initialState (Except.ok okImageParts) (Or.inl rfl)⟩,
   ⟨by decide, rfl,
    edit_keeps_prior_image_until_success.2.1 editReadyState (Except.error "network down")
      "network down" (by decide) rfl⟩,
   ⟨rfl,
    edit_keeps_prior_image_until_success.2.2.1 editReadyState (Except.ok okImageParts)
      "IMG" (by decide) rfl⟩,
   ⟨by decide,
    edit_keeps_prior_image_until_success.2.2.2 loadingGenerateState "network down" (by decide)⟩⟩

end StyleMix
